import Mathlib

/-
Verification of the KONEKTA overworld engine (tilemap.py, states.py).

The Python code is shallowly embedded: machine integers are `Int` (Python
ints are unbounded, so no wrap-around modelling is needed), Python `//`
(floor division) is `Int.fdiv`, Python `int()` applied to a float value
truncates toward zero and is modelled with `Int.tdiv` on exact rationals,
and the insertion-ordered `dict` stores (`self.layers`,
`self.interaction_zones`) are association lists.  Animation phases are
floats stepped by 0.05 / 0.15 / 0.3 in the source; they are embedded as
exact rationals (1/20, 3/20, 3/10), which agrees with the float program on
the properties stated here (only equality of update shape is used, never
float rounding).
-/

namespace Konekta

/-- A map layer grid: rows of integer tile ids, as produced by
`Tilemap.load_csv_layer`. -/
abbrev Grid := List (List Int)

/-- First-match lookup in the insertion-ordered layer store
(`self.layers[name]` on a Python dict). -/
def lookupLayer (layers : List (String × Grid)) (name : String) : Option Grid :=
  (layers.find? (fun p => p.1 == name)).map (fun p => p.2)

/-- An interaction zone rectangle as stored by
`Tilemap.process_gamedesignation` (pixel coordinates). -/
structure Zone where
  x : Int
  y : Int
  width : Int
  height : Int
deriving DecidableEq, Repr

/-- The tilemap state after `Tilemap.__init__`: the layer store, the map
pixel dimensions, the interaction-zone store and the stored spawn tile.
`collision_map` is derived below exactly as `__init__` sets it. -/
structure Tilemap where
  layers : List (String × Grid)
  map_width : Int
  map_height : Int
  interaction_zones : List (String × Zone)
  spawn_x : Int
  spawn_y : Int

/-- `self.collision_map`: the `collision` layer when loaded, `[]` otherwise. -/
def Tilemap.collision_map (m : Tilemap) : Grid :=
  (lookupLayer m.layers "collision").getD []

/-- `Tilemap.is_collision(tile_x, tile_y)` translated line by line.  The
Python conditions `A if cm else B` (conditional expressions) become
`if cm ≠ [] then A else B`; `cm[0]` under the `cm` truthiness guard is
`cm.headD []`; indexing `cm[tile_y][tile_x]` happens only after the
`0 <= tile_y < len(cm)` and `0 <= tile_x < len(cm[tile_y])` guards, so
`getD` with defaults is exact. -/
def Tilemap.is_collision (m : Tilemap) (tile_x tile_y : Int) : Bool :=
  let cm := m.collision_map
  if tile_x < 0 ∨ tile_y < 0 then true
  else if (if cm ≠ [] then tile_x ≥ ((cm.headD []).length : Int)
           else tile_x * 32 ≥ m.map_width - 32) then true
  else if (if cm ≠ [] then tile_y ≥ (cm.length : Int)
           else tile_y * 32 ≥ m.map_height - 32) then true
  else if cm ≠ [] ∧ 0 ≤ tile_y ∧ tile_y < (cm.length : Int) ∧
          0 ≤ tile_x ∧ tile_x < ((cm.getD tile_y.toNat []).length : Int) then
    decide (0 < (cm.getD tile_y.toNat []).getD tile_x.toNat 0)
  else false

/-- The blocked-query property as the specification states it: negative
coordinates are blocked; coordinates at or beyond the collision layer's
extent (or, with no collision layer, at or beyond the map pixel extent
minus one tile) are blocked; a coordinate whose collision cell exists and
is positive is blocked; nothing else is. -/
def BlockedSpec (m : Tilemap) (tile_x tile_y : Int) : Prop :=
  tile_x < 0 ∨ tile_y < 0 ∨
  (if m.collision_map ≠ [] then
      tile_x ≥ ((m.collision_map.headD []).length : Int) ∨
      tile_y ≥ (m.collision_map.length : Int)
    else
      tile_x * 32 ≥ m.map_width - 32 ∨ tile_y * 32 ≥ m.map_height - 32) ∨
  (0 ≤ tile_x ∧ 0 ≤ tile_y ∧
    ∃ row, m.collision_map.get? tile_y.toNat = some row ∧
      ∃ v, row.get? tile_x.toNat = some v ∧ 0 < v)

/-- The four facing directions of `Player.direction`. -/
inductive Direction where
  | left
  | right
  | up
  | down
deriving DecidableEq, Repr

/-- The player state (`Player.__init__` fields relevant to movement).
Animation phases are floats in the source, stepped by 0.05 / 0.15 / 0.3
and wrapped modulo 8; they are embedded as exact rationals. -/
structure Player where
  tile_x : Int
  tile_y : Int
  pixel_x : Int
  pixel_y : Int
  animation_frame : ℚ
  idle_animation_frame : ℚ
  direction : Direction
  moving : Bool
  running : Bool

/-- `Player.__init__(start_x, start_y)`: tile position from the arguments,
pixel position `start * 32`, both animation phases 0, facing down, not
moving, not running. -/
def Player.init (start_x start_y : Int) : Player :=
  { tile_x := start_x
    tile_y := start_y
    pixel_x := start_x * 32
    pixel_y := start_y * 32
    animation_frame := 0
    idle_animation_frame := 0
    direction := .down
    moving := false
    running := false }

/-- Python float `%` (floor modulus) by 8, on exact rationals. -/
def fmod8 (q : ℚ) : ℚ := q - 8 * ⌊q / 8⌋

/-- `Player.move(dx, dy, tilemap, running)` translated line by line:
set `running`; a zero intent only advances the idle phase; otherwise set
the facing from the intent (left, right, up, down, first match), compute
the candidate pixel position at speed 5 (running) or 2, its tile via
floor division by 32, and commit it only when `is_collision` is false,
else advance the idle phase with `moving = False`. -/
def Player.move (p : Player) (dx dy : Int) (m : Tilemap) (running : Bool) :
    Player :=
  let p := { p with running := running }
  if dx = 0 ∧ dy = 0 then
    { p with moving := false
             idle_animation_frame := fmod8 (p.idle_animation_frame + 1/20) }
  else
    let dir : Direction :=
      if dx < 0 then .left
      else if 0 < dx then .right
      else if dy < 0 then .up
      else if 0 < dy then .down
      else p.direction
    let p := { p with direction := dir }
    let current_speed : Int := if running then 5 else 2
    let new_pixel_x := p.pixel_x + dx * current_speed
    let new_pixel_y := p.pixel_y + dy * current_speed
    let new_tile_x := new_pixel_x.fdiv 32
    let new_tile_y := new_pixel_y.fdiv 32
    if m.is_collision new_tile_x new_tile_y = false then
      { p with pixel_x := new_pixel_x
               pixel_y := new_pixel_y
               tile_x := new_tile_x
               tile_y := new_tile_y
               moving := true
               animation_frame :=
                 fmod8 (p.animation_frame + if running then 3/10 else 3/20) }
    else
      { p with moving := false
               idle_animation_frame := fmod8 (p.idle_animation_frame + 1/20) }

/-- The coordinate coherence invariant of the spec: the tile position is
the floor of the pixel position over the tile size 32. -/
def Player.tileInv (p : Player) : Prop :=
  p.tile_x = p.pixel_x.fdiv 32 ∧ p.tile_y = p.pixel_y.fdiv 32

instance (p : Player) : Decidable p.tileInv := by
  unfold Player.tileInv
  infer_instance

/-- Scenario A of the spec: a 3×3 collision grid whose only nonzero cell
is the centre. -/
def grid3 : Grid := [[0, 0, 0], [0, 1, 0], [0, 0, 0]]

/-- The tilemap holding `grid3` as its collision layer (map pixel extent
3 tiles × 32). -/
def map3 : Tilemap :=
  { layers := [("collision", grid3)]
    map_width := 96
    map_height := 96
    interaction_zones := []
    spawn_x := 0
    spawn_y := 0 }

/-- A player on tile (1,0) standing at the lower boundary of its tile
(pixel row 30), one walking step away from the blocked centre tile. -/
def playerEdge : Player := { Player.init 1 0 with pixel_y := 30 }

/-- The per-tick movement intent of the Overworld Screen
(`MenuState.update`): vertical keys first, up before down, then left, then
right; at most one axis ever becomes nonzero. -/
def movementIntent (up down left right : Bool) : Int × Int :=
  if up then (0, -1)
  else if down then (0, 1)
  else if left then (-1, 0)
  else if right then (1, 0)
  else (0, 0)

/-- The specification's reading of the intent: the first held key in the
fixed order up, down, left, right determines the single nonzero axis. -/
def intentSpec (up down left right : Bool) : Int × Int :=
  (([(up, ((0 : Int), (-1 : Int))), (down, (0, 1)),
      (left, (-1, 0)), (right, (1, 0))].find? (fun p => p.1)).map
    (fun p => p.2)).getD (0, 0)

/-- Tile-id → zone-name table of `Tilemap.process_gamedesignation`. -/
def tile_to_zone (tile_id : Int) : Option String :=
  if tile_id = 70 then some "barangay_captain"
  else if tile_id = 71 then some "recipe_game"
  else if tile_id = 72 then some "word_match"
  else none

/-- `Tilemap.process_gamedesignation`: scan the layer row-major and store,
for the first occurrence of each marker id, a 32×32 zone at the tile's
pixel position `(x * 32, y * 32)`. -/
def process_gamedesignation (layer : Grid) : List (String × Zone) :=
  layer.enum.foldl (fun acc yrow =>
    yrow.2.enum.foldl (fun acc xcell =>
      match tile_to_zone xcell.2 with
      | some zone_name =>
        if acc.any (fun p => p.1 == zone_name) then acc
        else acc ++ [(zone_name,
          { x := (xcell.1 : Int) * 32, y := (yrow.1 : Int) * 32,
            width := 32, height := 32 })]
      | none => acc) acc) []

/-- The offsets `range(-1, 2)` scanned by `check_interaction`. -/
def checkOffsets : List Int := [-1, 0, 1]

/-- `Tilemap.check_interaction(tile_x, tile_y)`: for each offset pair in
source order (dy outer, dx inner), return the first stored zone whose
pixel position equals the offset tile's pixel position. -/
def Tilemap.check_interaction (m : Tilemap) (tile_x tile_y : Int) :
    Option String :=
  checkOffsets.findSome? fun dy =>
    checkOffsets.findSome? fun dx =>
      m.interaction_zones.findSome? fun z =>
        if z.2.x = (tile_x + dx) * 32 ∧ z.2.y = (tile_y + dy) * 32 then
          some z.1
        else none

/-- Scenario B of the spec: a gamedesignation layer with marker value 70
at grid cell (5,5) and zeros elsewhere. -/
def grid70 : Grid :=
  [[0, 0, 0, 0, 0, 0], [0, 0, 0, 0, 0, 0], [0, 0, 0, 0, 0, 0],
   [0, 0, 0, 0, 0, 0], [0, 0, 0, 0, 0, 0], [0, 0, 0, 0, 0, 70]]

/-- The tilemap whose interaction zones come from `grid70`. -/
def map70 : Tilemap :=
  { layers := [("gamedesignation", grid70)]
    map_width := 192
    map_height := 192
    interaction_zones := process_gamedesignation grid70
    spawn_x := 0
    spawn_y := 0 }

/-- The inner `for x, tile_id in enumerate(row)` scan of
`find_spawn_position`: index of the first positive cell of a row. -/
def rowFirst (row : List Int) : Option Nat :=
  match row with
  | [] => none
  | v :: rest => if 0 < v then some 0 else (rowFirst rest).map (· + 1)

/-- The outer `for y, row in enumerate(layer)` scan: the (x, y) of the
first positive cell of a grid in row-major order. -/
def gridFirst (g : Grid) : Option (Nat × Nat) :=
  match g with
  | [] => none
  | row :: rest =>
    match rowFirst row with
    | some x => some (x, 0)
    | none => (gridFirst rest).map (fun p => (p.1, p.2 + 1))

/-- `Tilemap.find_spawn_position`: the first positive cell of the `land`,
`path` or `water` layer in that priority order; else the centre
`(cols / 2, rows / 2)` of the first loaded layer; else `(10, 8)`.
(With an empty first layer the Python `first_layer[0]` would raise; the
`headD []` here gives column centre 0 instead — no claim touches that
crash case.) -/
def Tilemap.find_spawn_position (m : Tilemap) : Int × Int :=
  match ["land", "path", "water"].findSome?
      (fun name => (lookupLayer m.layers name).bind
        (fun g => (gridFirst g).map (fun p => ((p.1 : Int), (p.2 : Int))))) with
  | some p => p
  | none =>
    match m.layers with
    | [] => (10, 8)
    | (_, g) :: _ =>
      ((((g.headD []).length / 2 : Nat) : Int), ((g.length / 2 : Nat) : Int))

/-- The row-major-first-positive-cell property as the spec describes it:
the cell at (x, y) is positive, every earlier cell of row y is not, and no
earlier row has a positive cell. -/
def IsFirstPositive (g : Grid) (x y : Nat) : Prop :=
  y < g.length ∧ x < (g.getD y []).length ∧ 0 < (g.getD y []).getD x 0 ∧
  (∀ x' < x, (g.getD y []).getD x' 0 ≤ 0) ∧
  (∀ y' < y, ∀ x' < (g.getD y' []).length, (g.getD y' []).getD x' 0 ≤ 0)

instance (g : Grid) (x y : Nat) : Decidable (IsFirstPositive g x y) := by
  unfold IsFirstPositive
  infer_instance

/-- No positive cell anywhere in the named layer; vacuously true when the
layer is absent, matching the `if layer_name in self.layers` skip. -/
def NoPositiveIn (m : Tilemap) (name : String) : Prop :=
  ∀ g, lookupLayer m.layers name = some g →
    ∀ y < g.length, ∀ x < (g.getD y []).length, (g.getD y []).getD x 0 ≤ 0

/-- One camera axis step of `MenuState.update`:
`c = int(c + (target - c) * 0.1)` then
`c = max(0, min(c, map_extent - screen_extent))`.  Exactly,
`c + (t - c) * 0.1 = (9c + t) / 10`, and Python `int()` on a float
truncates toward zero, hence `Int.tdiv`.  (The float64 evaluation agrees
with the exact rational for all in-game magnitudes.) -/
def cameraStep (mapExtent screenExtent t c : Int) : Int :=
  max 0 (min (Int.tdiv (9 * c + t) 10) (mapExtent - screenExtent))

/-- Iterated camera updates against a stationary target. -/
def cameraIter (mapExtent screenExtent t : Int) : Nat → Int → Int
  | 0, c => c
  | n + 1, c =>
    cameraIter mapExtent screenExtent t n (cameraStep mapExtent screenExtent t c)

/-- The digit fold of a decimal numeral. -/
def parseDigits (cs : List Char) : Nat :=
  cs.foldl (fun n c => 10 * n + (c.toNat - 48)) 0

/-- Python `int()` on a CSV cell token: an optional leading minus sign
followed by decimal digits.  (Python additionally strips whitespace and
accepts a plus sign and underscores; Tiled CSV tokens contain none of
those.) -/
def pyInt (s : String) : Int :=
  match s.toList with
  | '-' :: rest => -(parseDigits rest : Int)
  | cs => (parseDigits cs : Int)

/-- One cell of `Tilemap.load_csv_layer`:
`int(cell) if cell and cell != '-1' else 0`. -/
def cellValue (s : String) : Int :=
  if s ≠ "" ∧ s ≠ "-1" then pyInt s else 0

/-- `Tilemap.load_csv_layer`: parse every token of every row. -/
def load_csv_layer (rows : List (List String)) : Grid :=
  rows.map (fun row => row.map cellValue)

/-- The layer names probed by the loading loop of `Tilemap.__init__`:
`self.layer_order + ['collision', 'gamedesignation']`. -/
def loadOrder : List String :=
  ["water", "under", "shadow_under", "land", "path", "bridge", "over",
   "waterfall", "items", "gamedesignation", "sign", "house1", "house",
   "front", "trees", "rocks", "shadow", "collision", "gamedesignation"]

/-- One iteration of the loading loop: when the layer file exists
(`os.path.exists`), parse and store it — a Python dict assignment keeps an
existing key's position and appends a new key; a missing file leaves the
store unchanged (and construction continues). -/
def loadStep (files : String → Option (List (List String)))
    (acc : List (String × Grid)) (name : String) : List (String × Grid) :=
  match files name with
  | some rows =>
    if acc.any (fun p => p.1 == name) then
      acc.map (fun p => if p.1 == name then (name, load_csv_layer rows) else p)
    else acc ++ [(name, load_csv_layer rows)]
  | none => acc

/-- The layer-loading loop of `Tilemap.__init__` over an abstract
filesystem (`files name` is the parsed token grid of the layer's CSV file
when that file exists). -/
def loadLayers (files : String → Option (List (List String))) :
    List (String × Grid) :=
  loadOrder.foldl (loadStep files) []

/-- The `MenuState` fields touched by Overworld screen entry. -/
structure MenuState where
  player : Player
  camera_x : Int
  camera_y : Int
  interaction_prompt : Option String

/-- `MenuState.enter`: recreate the player at the tilemap's stored spawn
point, clear the interaction prompt, and snap the camera to centre on the
player (`W`, `H` are `config.SCREEN_WIDTH/HEIGHT`; Python `//` is floor
division). -/
def MenuState.enter (s : MenuState) (m : Tilemap) (W H : Int) : MenuState :=
  let player := Player.init m.spawn_x m.spawn_y
  { s with
    player := player
    interaction_prompt := none
    camera_x := player.pixel_x - W.fdiv 2 + 16
    camera_y := player.pixel_y - H.fdiv 2 + 16 }

/-- A tilemap with spawn point (0, 0) for the C4 counterexample. -/
def mapC4 : Tilemap :=
  { layers := []
    map_width := 1024
    map_height := 768
    interaction_zones := []
    spawn_x := 0
    spawn_y := 0 }

/-- A menu state whose player stands at tile (3, 3) when a transition
triggers. -/
def stateC4 : MenuState :=
  { player := Player.init 3 3
    camera_x := 0
    camera_y := 0
    interaction_prompt := some "barangay_captain" }

/-- Helper: under an in-bounds index, `get?` returns exactly the `getD`
value. -/
theorem get?_eq_some_getD {α : Type} (l : List α) (n : Nat) (d : α)
    (h : n < l.length) : l.get? n = some (l.getD n d) := by
  induction l generalizing n with
  | nil => simp at h
  | cons a t ih =>
    cases n with
    | zero => rfl
    | succ k => simpa using ih k (by simpa using h)

/-- C1: for every integer pair, `is_collision` returns true exactly on the
coordinates described by the spec (negative, beyond the collision extent
or the no-collision-layer pixel-extent bound, or on a positive collision
cell), and false otherwise; being a total `Bool`-valued function it never
raises, for arbitrary out-of-range inputs. -/
theorem is_collision_iff_blockedSpec (m : Tilemap) (x y : Int) :
    m.is_collision x y = true ↔ BlockedSpec m x y := by
  unfold Tilemap.is_collision BlockedSpec
  by_cases hnil : m.collision_map = []
  · simp only [hnil, ne_eq, not_true_eq_false, if_false, ite_false]
    split_ifs with h1 h2 h3
    all_goals simp_all
    all_goals omega
  · simp only [hnil, ne_eq, not_false_eq_true, if_true, ite_true]
    split_ifs with h1 h2 h3 h4
    · tauto
    · tauto
    · tauto
    · obtain ⟨-, hy0, hylt, hx0, hxlt⟩ := h4
      have hy' : y.toNat < m.collision_map.length :=
        (Int.toNat_lt hy0).2 (by exact_mod_cast hylt)
      have hx' : x.toNat < (m.collision_map.getD y.toNat []).length :=
        (Int.toNat_lt hx0).2 (by exact_mod_cast hxlt)
      simp only [decide_eq_true_eq]
      constructor
      · intro hpos
        refine Or.inr (Or.inr (Or.inr ⟨hx0, hy0, ?_⟩))
        refine ⟨m.collision_map.getD y.toNat [], get?_eq_some_getD _ _ _ hy', ?_⟩
        exact ⟨(m.collision_map.getD y.toNat []).getD x.toNat 0,
          get?_eq_some_getD _ _ _ hx', hpos⟩
      · rintro (h | h | (h | h) | ⟨-, -, row, hrow, v, hv, hvpos⟩)
        · omega
        · omega
        · omega
        · omega
        · rw [get?_eq_some_getD _ _ [] hy'] at hrow
          injection hrow with hrow
          subst hrow
          rw [get?_eq_some_getD _ _ 0 hx'] at hv
          injection hv with hv
          subst hv
          exact hvpos
    · simp only [false_iff]
      rintro (h | h | (h | h) | ⟨hx0, hy0, row, hrow, v, hv, hvpos⟩)
      · omega
      · omega
      · omega
      · omega
      · have hy' : y.toNat < m.collision_map.length := by
          rcases List.get?_eq_some.1 hrow with ⟨hlt, -⟩
          exact hlt
        have hylt : y < (m.collision_map.length : Int) :=
          (Int.toNat_lt hy0).1 hy'
        rw [get?_eq_some_getD _ _ [] hy'] at hrow
        injection hrow with hrow
        subst hrow
        rcases List.get?_eq_some.1 hv with ⟨hxlt', -⟩
        have hxlen : x < ((m.collision_map.getD y.toNat []).length : Int) :=
          (Int.toNat_lt hx0).1 hxlt'
        exact h4 ⟨trivial, hy0, hylt, hx0, hxlen⟩

/-- C2: the invariant `tile = floor (pixel / 32)` holds at construction
and is preserved by every `Player.move` call, whatever the intent, sprint
flag and tilemap, whether the move commits or is refused. -/
theorem move_preserves_tileInv :
    (∀ start_x start_y : Int, (Player.init start_x start_y).tileInv) ∧
    (∀ (p : Player) (dx dy : Int) (m : Tilemap) (running : Bool),
      p.tileInv → (p.move dx dy m running).tileInv) := by
  constructor
  · intro sx sy
    exact ⟨(Int.mul_fdiv_cancel sx (by norm_num)).symm,
      (Int.mul_fdiv_cancel sy (by norm_num)).symm⟩
  · intro p dx dy m running h
    unfold Player.move
    dsimp only
    split_ifs <;> first | exact ⟨rfl, rfl⟩ | exact h

/-- Witness for C2 at concrete inputs: a freshly constructed player
satisfies the invariant, and a `move` step from it preserves it. -/
theorem move_preserves_tileInv_witness :
    ((Player.init 3 4).move 1 0
      { layers := [], map_width := 1024, map_height := 768,
        interaction_zones := [], spawn_x := 10, spawn_y := 8 } false).tileInv :=
  move_preserves_tileInv.2 (Player.init 3 4) 1 0 _ false (by decide)

/-- C3 (amended): whenever the candidate tile
`(pixel + intent × speed) fdiv 32` is blocked, `move` leaves the pixel and
tile position unchanged, reports `moving = false` and advances the idle
phase; the Scenario A player refuses the downward step only when standing
at the boundary of tile (1,0) (pixel row 30), since the candidate tile is
computed from the pixel position. -/
theorem move_blocked_refused :
    (∀ (p : Player) (dx dy : Int) (m : Tilemap) (running : Bool),
      ¬(dx = 0 ∧ dy = 0) →
      m.is_collision ((p.pixel_x + dx * (if running then 5 else 2)).fdiv 32)
        ((p.pixel_y + dy * (if running then 5 else 2)).fdiv 32) = true →
      (p.move dx dy m running).pixel_x = p.pixel_x ∧
      (p.move dx dy m running).pixel_y = p.pixel_y ∧
      (p.move dx dy m running).tile_x = p.tile_x ∧
      (p.move dx dy m running).tile_y = p.tile_y ∧
      (p.move dx dy m running).moving = false ∧
      (p.move dx dy m running).idle_animation_frame
        = fmod8 (p.idle_animation_frame + 1/20)) ∧
    ((playerEdge.move 0 1 map3 false).pixel_x = playerEdge.pixel_x ∧
     (playerEdge.move 0 1 map3 false).pixel_y = playerEdge.pixel_y ∧
     (playerEdge.move 0 1 map3 false).tile_x = 1 ∧
     (playerEdge.move 0 1 map3 false).tile_y = 0 ∧
     (playerEdge.move 0 1 map3 false).moving = false) := by
  constructor
  · intro p dx dy m running h hblocked
    unfold Player.move
    dsimp only
    rw [if_neg h, hblocked, if_neg (show ¬(true = false) by simp)]
    exact ⟨rfl, rfl, rfl, rfl, rfl, rfl⟩
  · decide

/-- Witness for C3 at concrete inputs: the blocked Scenario A step at the
tile boundary, through the universally quantified part of the theorem. -/
theorem move_blocked_refused_witness :
    (playerEdge.move 0 1 map3 false).pixel_y = playerEdge.pixel_y ∧
    (playerEdge.move 0 1 map3 false).moving = false := by
  have h := move_blocked_refused.1 playerEdge 0 1 map3 false
    (by decide) (by decide)
  exact ⟨h.2.1, h.2.2.2.2.1⟩

/-- C3 counterexample to the claim as stated: the canonical player at tile
(1,0) has pixel position (32, 0); calling move(0,1) on the Scenario A grid
commits the move (the candidate tile is still (1,0), not the blocked
centre), so the position changes and the player is not idle. -/
theorem move_scenarioA_counterexample :
    (Player.init 1 0).tile_x = 1 ∧ (Player.init 1 0).tile_y = 0 ∧
    ((Player.init 1 0).move 0 1 map3 false).pixel_y = 2 ∧
    ((Player.init 1 0).move 0 1 map3 false).moving = true := by
  decide

/-- C10: for every nonzero intent, `move` sets the facing direction from
the intent alone (left, right, up, down checked in that order, first match
wins), independently of whether the tilemap blocks the move, so facing
changes even when the position stays. -/
theorem move_sets_direction (p : Player) (dx dy : Int) (m : Tilemap)
    (running : Bool) (h : ¬(dx = 0 ∧ dy = 0)) :
    (p.move dx dy m running).direction =
      (if dx < 0 then Direction.left
       else if 0 < dx then Direction.right
       else if dy < 0 then Direction.up
       else Direction.down) := by
  unfold Player.move
  dsimp only
  rw [if_neg h]
  split_ifs <;> first | rfl | omega

/-- Witness for C10 at concrete inputs: the Scenario A player at the tile
boundary faces down after the refused downward step. -/
theorem move_sets_direction_witness :
    (playerEdge.move 0 1 map3 false).direction = Direction.down := by
  have h := move_sets_direction playerEdge 0 1 map3 false (by decide)
  simpa using h

/-- C8: the movement intent is always cardinal (`dx * dy = 0`, never both
axes nonzero) and equals the intent of the first held key in the fixed
priority order up, down, left, right. -/
theorem movementIntent_cardinal_priority
    (up down left right : Bool) :
    (movementIntent up down left right).1 *
      (movementIntent up down left right).2 = 0 ∧
    movementIntent up down left right = intentSpec up down left right := by
  cases up <;> cases down <;> cases left <;> cases right <;> decide

/-- Helper: `findSome?` produces a value exactly when some list element
does. -/
theorem findSome?_isSome_iff {α β : Type} (f : α → Option β) (l : List α) :
    (l.findSome? f).isSome = true ↔ ∃ x ∈ l, (f x).isSome = true := by
  constructor
  · intro h
    rcases Option.isSome_iff_exists.1 h with ⟨v, hv⟩
    rcases List.exists_of_findSome?_eq_some hv with ⟨x, hx, hfx⟩
    exact ⟨x, hx, by simp [hfx]⟩
  · rintro ⟨x, hx, hfx⟩
    by_contra hnone
    rw [Option.not_isSome_iff_eq_none, List.findSome?_eq_none_iff] at hnone
    rw [hnone x hx] at hfx
    simp at hfx

/-- Helper: a guarded `some` produces a value exactly when the guard
holds. -/
theorem isSome_ite {α : Type} (c : Prop) [Decidable c] (v : α) :
    (if c then some v else none).isSome = true ↔ c := by
  split_ifs with h <;> simp [h]

/-- Helper: membership in the offset list is Chebyshev radius 1. -/
theorem mem_checkOffsets (a : Int) : a ∈ checkOffsets ↔ a.natAbs ≤ 1 := by
  simp only [checkOffsets, List.mem_cons, List.not_mem_nil, or_false]
  omega

/-- C5: the zone query returns some zone name exactly when a stored zone's
tile coordinate lies within Chebyshev distance 1 of the query (the 3×3
neighbourhood); concretely, with marker 70 at (5,5), the queries at (5,5),
(4,5) and (6,6) return the zone name and the query at (7,7) returns none. -/
theorem check_interaction_iff_chebyshev :
    (∀ (m : Tilemap) (tile_x tile_y : Int),
      (m.check_interaction tile_x tile_y).isSome = true ↔
        ∃ z ∈ m.interaction_zones, ∃ a b : Int,
          a.natAbs ≤ 1 ∧ b.natAbs ≤ 1 ∧
          z.2.x = (tile_x + a) * 32 ∧ z.2.y = (tile_y + b) * 32) ∧
    map70.check_interaction 5 5 = some "barangay_captain" ∧
    map70.check_interaction 4 5 = some "barangay_captain" ∧
    map70.check_interaction 6 6 = some "barangay_captain" ∧
    map70.check_interaction 7 7 = none := by
  refine ⟨fun m tile_x tile_y => ?_, by decide, by decide, by decide, by decide⟩
  unfold Tilemap.check_interaction
  rw [findSome?_isSome_iff]
  constructor
  · rintro ⟨dy, hdy, h⟩
    rw [findSome?_isSome_iff] at h
    rcases h with ⟨dx, hdx, h⟩
    rw [findSome?_isSome_iff] at h
    rcases h with ⟨z, hz, h⟩
    rw [isSome_ite] at h
    exact ⟨z, hz, dx, dy, (mem_checkOffsets dx).1 hdx,
      (mem_checkOffsets dy).1 hdy, h.1, h.2⟩
  · rintro ⟨z, hz, a, b, ha, hb, hxa, hyb⟩
    refine ⟨b, (mem_checkOffsets b).2 hb, ?_⟩
    rw [findSome?_isSome_iff]
    refine ⟨a, (mem_checkOffsets a).2 ha, ?_⟩
    rw [findSome?_isSome_iff]
    exact ⟨z, hz, (isSome_ite _ _).2 ⟨hxa, hyb⟩⟩

/-- Helper: characterization of the row scan failing. -/
theorem rowFirst_eq_none_iff (row : List Int) :
    rowFirst row = none ↔ ∀ x < row.length, row.getD x 0 ≤ 0 := by
  induction row with
  | nil => simp [rowFirst]
  | cons v rest ih =>
    unfold rowFirst
    split_ifs with hv
    · constructor
      · intro h
        simp at h
      · intro h
        exact absurd (h 0 (by simp)) (by simpa using hv)
    · rw [Option.map_eq_none', ih]
      constructor
      · intro h x hx
        cases x with
        | zero => simpa using le_of_not_lt hv
        | succ k => simpa using h k (by simpa using hx)
      · intro h x hx
        simpa using h (x + 1) (by simpa using hx)

/-- Helper: characterization of the row scan succeeding. -/
theorem rowFirst_eq_some_iff (row : List Int) (x : Nat) :
    rowFirst row = some x ↔
      x < row.length ∧ 0 < row.getD x 0 ∧ ∀ x' < x, row.getD x' 0 ≤ 0 := by
  induction row generalizing x with
  | nil => simp [rowFirst]
  | cons v rest ih =>
    unfold rowFirst
    split_ifs with hv
    · constructor
      · intro h
        injection h with h
        subst h
        exact ⟨by simp, by simpa using hv, by omega⟩
      · rintro ⟨-, -, hbefore⟩
        cases x with
        | zero => rfl
        | succ k => exact absurd (hbefore 0 (by omega)) (by simpa using hv)
    · rw [Option.map_eq_some']
      constructor
      · rintro ⟨k, hk, rfl⟩
        obtain ⟨h1, h2, h3⟩ := ih k |>.1 hk
        refine ⟨by simpa using h1, by simpa using h2, ?_⟩
        intro x' hx'
        cases x' with
        | zero => simpa using le_of_not_lt hv
        | succ j => simpa using h3 j (by omega)
      · rintro ⟨h1, h2, h3⟩
        cases x with
        | zero => exact absurd (by simpa using h2) hv
        | succ k =>
          refine ⟨k, (ih k).2 ⟨by simpa using h1, by simpa using h2, ?_⟩, rfl⟩
          intro j hj
          simpa using h3 (j + 1) (by omega)

/-- Helper: characterization of the grid scan failing. -/
theorem gridFirst_eq_none_iff (g : Grid) :
    gridFirst g = none ↔
      ∀ y < g.length, ∀ x < (g.getD y []).length, (g.getD y []).getD x 0 ≤ 0 := by
  induction g with
  | nil => simp [gridFirst]
  | cons row rest ih =>
    unfold gridFirst
    cases hrow : rowFirst row with
    | some x =>
      constructor
      · intro h
        simp at h
      · intro h
        obtain ⟨h1, h2, -⟩ := (rowFirst_eq_some_iff row x).1 hrow
        exact absurd (h 0 (by simp) x (by simpa using h1)) (by simpa using h2)
    | none =>
      rw [Option.map_eq_none', ih]
      constructor
      · intro h y hy
        cases y with
        | zero =>
          simpa using (rowFirst_eq_none_iff row).1 hrow
        | succ k => simpa using h k (by simpa using hy)
      · intro h y hy
        simpa using h (y + 1) (by simpa using hy)

/-- Helper: characterization of the grid scan succeeding. -/
theorem gridFirst_eq_some_iff (g : Grid) (x y : Nat) :
    gridFirst g = some (x, y) ↔ IsFirstPositive g x y := by
  induction g generalizing y with
  | nil => simp [gridFirst, IsFirstPositive]
  | cons row rest ih =>
    unfold gridFirst
    cases hrow : rowFirst row with
    | some x0 =>
      obtain ⟨h1, h2, h3⟩ := (rowFirst_eq_some_iff row x0).1 hrow
      constructor
      · intro h
        injection h with h
        rw [Prod.mk.injEq] at h
        obtain ⟨rfl, rfl⟩ := h
        exact ⟨by simp, by simpa using h1, by simpa using h2,
          by simpa using h3, by omega⟩
      · rintro ⟨hy, hx, hpos, hbefore, hrows⟩
        cases y with
        | zero =>
          have hx0 : x = x0 := by
            by_contra hne
            rcases Nat.lt_or_ge x x0 with hlt | hge
            · exact absurd (h3 x hlt) (by simp_all)
            · have hlt2 : x0 < x := by omega
              exact absurd (hbefore x0 hlt2) (by simp_all)
          rw [hx0]
        | succ k =>
          exact absurd (hrows 0 (by omega) x0 (by simpa using h1))
            (by simp_all)
    | none =>
      rw [Option.map_eq_some']
      have hallrow := (rowFirst_eq_none_iff row).1 hrow
      constructor
      · rintro ⟨⟨x1, k⟩, hk, hmk⟩
        dsimp only at hmk
        rw [Prod.mk.injEq] at hmk
        obtain ⟨rfl, rfl⟩ := hmk
        obtain ⟨h1, h2, h3, h4, h5⟩ := (ih k).1 hk
        refine ⟨by simpa using h1, by simpa using h2, by simpa using h3,
          by simpa using h4, ?_⟩
        intro y' hy'
        cases y' with
        | zero => simpa using hallrow
        | succ j => simpa using h5 j (by omega)
      · rintro ⟨hy, hx, hpos, hbefore, hrows⟩
        cases y with
        | zero =>
          have hx' : x < row.length := by simpa using hx
          have hpos' : 0 < row.getD x 0 := by simpa using hpos
          exact absurd (hallrow x hx') (not_le.2 hpos')
        | succ k =>
          refine ⟨(x, k), (ih k).2
            ⟨by simpa using hy, by simpa using hx, by simpa using hpos,
             by simpa using hbefore, ?_⟩, rfl⟩
          intro j hj
          simpa using hrows (j + 1) (by omega)

/-- C6 counterexample to "first non-zero cell": the scan tests
`tile_id > 0`, so it skips negative cells, which the loader can produce
(the token `-5` parses to `-5`): with a land layer `[[-5, 3]]` the spawn
is (1, 0), although the first non-zero cell sits at (0, 0). -/
theorem find_spawn_nonzero_counterexample :
    cellValue "-5" = -5 ∧
    Tilemap.find_spawn_position
      { layers := [("land", [[-5, 3]])], map_width := 64, map_height := 32,
        interaction_zones := [], spawn_x := 0, spawn_y := 0 } = (1, 0) ∧
    (([[-5, 3]] : Grid).getD 0 []).getD 0 0 ≠ 0 := by
  refine ⟨by decide, ?_, by decide⟩
  decide

/-- Helper: a priority layer with no positive cell contributes nothing to
the spawn scan. -/
theorem spawnScan_eq_none (m : Tilemap) (name : String)
    (h : NoPositiveIn m name) :
    (lookupLayer m.layers name).bind
      (fun g => (gridFirst g).map (fun p => ((p.1 : Int), (p.2 : Int))))
      = none := by
  cases hl : lookupLayer m.layers name with
  | none => rfl
  | some g =>
    have hg : gridFirst g = none := (gridFirst_eq_none_iff g).2 (h g hl)
    simp [hg]

/-- C6 (amended): the spawn point is the row-major-first positive cell
(`tile_id > 0`) of the `land` layer, else of the `path` layer, else of the
`water` layer, in that priority order; when none of those layers has a
positive cell it is the geometric centre `(cols / 2, rows / 2)` of the
first loaded layer, and with no layers at all it is the fixed default
`(10, 8)`. -/
theorem find_spawn_position_spec :
    (∀ (m : Tilemap) (g : Grid) (x y : Nat),
      lookupLayer m.layers "land" = some g → IsFirstPositive g x y →
      m.find_spawn_position = ((x : Int), (y : Int))) ∧
    (∀ (m : Tilemap) (g : Grid) (x y : Nat),
      NoPositiveIn m "land" →
      lookupLayer m.layers "path" = some g → IsFirstPositive g x y →
      m.find_spawn_position = ((x : Int), (y : Int))) ∧
    (∀ (m : Tilemap) (g : Grid) (x y : Nat),
      NoPositiveIn m "land" → NoPositiveIn m "path" →
      lookupLayer m.layers "water" = some g → IsFirstPositive g x y →
      m.find_spawn_position = ((x : Int), (y : Int))) ∧
    (∀ (m : Tilemap) (name0 : String) (g0 : Grid)
        (rest : List (String × Grid)),
      NoPositiveIn m "land" → NoPositiveIn m "path" → NoPositiveIn m "water" →
      m.layers = (name0, g0) :: rest →
      m.find_spawn_position =
        ((((g0.headD []).length / 2 : Nat) : Int),
         ((g0.length / 2 : Nat) : Int))) ∧
    (∀ m : Tilemap, m.layers = [] → m.find_spawn_position = (10, 8)) := by
  refine ⟨?_, ?_, ?_, ?_, ?_⟩
  · intro m g x y h hfp
    have hg : gridFirst g = some (x, y) := (gridFirst_eq_some_iff g x y).2 hfp
    simp [Tilemap.find_spawn_position, List.findSome?_cons, h, hg]
  · intro m g x y hland h hfp
    have h1 := spawnScan_eq_none m "land" hland
    have hg : gridFirst g = some (x, y) := (gridFirst_eq_some_iff g x y).2 hfp
    simp [Tilemap.find_spawn_position, List.findSome?_cons, h1, h, hg]
  · intro m g x y hland hpath h hfp
    have h1 := spawnScan_eq_none m "land" hland
    have h2 := spawnScan_eq_none m "path" hpath
    have hg : gridFirst g = some (x, y) := (gridFirst_eq_some_iff g x y).2 hfp
    simp [Tilemap.find_spawn_position, List.findSome?_cons, h1, h2, h, hg]
  · intro m name0 g0 rest hland hpath hwater hlayers
    have h1 := spawnScan_eq_none m "land" hland
    have h2 := spawnScan_eq_none m "path" hpath
    have h3 := spawnScan_eq_none m "water" hwater
    have hall : (["land", "path", "water"].findSome?
        (fun name => (lookupLayer m.layers name).bind
          (fun g => (gridFirst g).map (fun p => ((p.1 : Int), (p.2 : Int))))))
        = none := by
      rw [List.findSome?_eq_none_iff]
      intro name hname
      simp only [List.mem_cons, List.not_mem_nil, or_false] at hname
      rcases hname with rfl | rfl | rfl
      · exact h1
      · exact h2
      · exact h3
    unfold Tilemap.find_spawn_position
    rw [hall, hlayers]
  · intro m hlayers
    have hall : (["land", "path", "water"].findSome?
        (fun name => (lookupLayer m.layers name).bind
          (fun g => (gridFirst g).map (fun p => ((p.1 : Int), (p.2 : Int))))))
        = none := by
      rw [List.findSome?_eq_none_iff]
      intro name hname
      rw [hlayers]
      rfl
    unfold Tilemap.find_spawn_position
    rw [hall, hlayers]

/-- Witness for C6 at concrete inputs: a map whose `land` layer has its
first positive cell at (1, 1) spawns there. -/
theorem find_spawn_position_spec_witness :
    Tilemap.find_spawn_position
      { layers := [("land", [[0, 0], [0, 7]])], map_width := 64,
        map_height := 64, interaction_zones := [], spawn_x := 0,
        spawn_y := 0 } = (1, 1) :=
  find_spawn_position_spec.1 _ [[0, 0], [0, 7]] 1 1 (by decide) (by decide)

/-- Helper: each in-range step either sits still inside the truncation
dead zone `[t - 9, t]`, or moves strictly toward the target without
crossing it. -/
theorem cameraStep_progress (M S t c : Int) (ht0 : 0 ≤ t) (ht1 : t ≤ M - S)
    (hc0 : 0 ≤ c) (hc1 : c ≤ M - S) :
    (c ≤ t ∧ t ≤ c + 9 ∧ cameraStep M S t c = c) ∨
    (c < cameraStep M S t c ∧ cameraStep M S t c ≤ t) ∨
    (t ≤ cameraStep M S t c ∧ cameraStep M S t c < c) := by
  unfold cameraStep
  rw [Int.tdiv_eq_ediv (by omega) (by norm_num)]
  omega

/-- Helper: from any start whose distance to an in-range target is at most
`k`, some number of steps reaches a fixed point inside the dead zone. -/
theorem cameraStep_reaches_fixed (M S t : Int) (ht0 : 0 ≤ t)
    (ht1 : t ≤ M - S) :
    ∀ (k : Nat) (c : Int), (t - c).natAbs ≤ k → 0 ≤ c → c ≤ M - S →
      ∃ n, cameraStep M S t (cameraIter M S t n c) = cameraIter M S t n c ∧
        t - 9 ≤ cameraIter M S t n c ∧ cameraIter M S t n c ≤ t ∧
        0 ≤ cameraIter M S t n c ∧ cameraIter M S t n c ≤ M - S := by
  intro k
  induction k with
  | zero =>
    intro c hk hc0 hc1
    have hct : c = t := by omega
    rcases cameraStep_progress M S t c ht0 ht1 hc0 hc1 with
      ⟨h1, h2, h3⟩ | ⟨h1, h2⟩ | ⟨h1, h2⟩
    · refine ⟨0, ?_, ?_, ?_, ?_, ?_⟩ <;> simp only [cameraIter]
      · exact h3
      · omega
      · omega
      · exact hc0
      · exact hc1
    · omega
    · omega
  | succ k ih =>
    intro c hk hc0 hc1
    rcases cameraStep_progress M S t c ht0 ht1 hc0 hc1 with
      ⟨h1, h2, h3⟩ | ⟨h1, h2⟩ | ⟨h1, h2⟩
    · refine ⟨0, ?_, ?_, ?_, ?_, ?_⟩ <;> simp only [cameraIter]
      · exact h3
      · omega
      · omega
      · exact hc0
      · exact hc1
    · have hs0 : 0 ≤ cameraStep M S t c := le_max_left 0 _
      have hs1 : cameraStep M S t c ≤ M - S := by
        unfold cameraStep
        omega
      obtain ⟨n, hfix, hlo, hhi, h0, h1'⟩ :=
        ih (cameraStep M S t c) (by omega) hs0 hs1
      refine ⟨n + 1, ?_, ?_, ?_, ?_, ?_⟩ <;> simp only [cameraIter]
      · exact hfix
      · exact hlo
      · exact hhi
      · exact h0
      · exact h1'
    · have hs0 : 0 ≤ cameraStep M S t c := le_max_left 0 _
      have hs1 : cameraStep M S t c ≤ M - S := by
        unfold cameraStep
        omega
      obtain ⟨n, hfix, hlo, hhi, h0, h1'⟩ :=
        ih (cameraStep M S t c) (by omega) hs0 hs1
      refine ⟨n + 1, ?_, ?_, ?_, ?_, ?_⟩ <;> simp only [cameraIter]
      · exact hfix
      · exact hlo
      · exact hhi
      · exact h0
      · exact h1'

/-- C7 (amended): every camera update lands inside the clamped map-bound
range `[0, max 0 (map_extent - screen_extent)]` (never overshooting), and
for a stationary in-range target the iteration reaches, in finitely many
steps, a fixed offset lying within 9 pixels at or below the clamped
target — not the exact target, because `int()` truncation of the
0.1-smoothed value has a 10-pixel-wide dead zone below the target. -/
theorem cameraStep_convergence :
    (∀ M S t c : Int,
      0 ≤ cameraStep M S t c ∧ cameraStep M S t c ≤ max 0 (M - S)) ∧
    (∀ M S t c : Int, 0 ≤ t → t ≤ M - S → 0 ≤ c → c ≤ M - S →
      ∃ n, cameraStep M S t (cameraIter M S t n c) = cameraIter M S t n c ∧
        t - 9 ≤ cameraIter M S t n c ∧ cameraIter M S t n c ≤ t ∧
        0 ≤ cameraIter M S t n c ∧ cameraIter M S t n c ≤ M - S) := by
  constructor
  · intro M S t c
    unfold cameraStep
    omega
  · intro M S t c ht0 ht1 hc0 hc1
    exact cameraStep_reaches_fixed M S t ht0 ht1 (t - c).natAbs c le_rfl hc0 hc1

/-- Witness for C7 at concrete inputs: map extent 1024, screen extent 320,
target 5, start 700. -/
theorem cameraStep_convergence_witness :
    ∃ n, cameraStep 1024 320 5 (cameraIter 1024 320 5 n 700)
        = cameraIter 1024 320 5 n 700 ∧
      5 - 9 ≤ cameraIter 1024 320 5 n 700 ∧
      cameraIter 1024 320 5 n 700 ≤ 5 ∧
      0 ≤ cameraIter 1024 320 5 n 700 ∧
      cameraIter 1024 320 5 n 700 ≤ 1024 - 320 :=
  cameraStep_convergence.2 1024 320 5 700 (by decide) (by decide)
    (by decide) (by decide)

/-- C7 counterexample to exact convergence: with map extent 1024, screen
extent 320 and stationary in-range target 5, the offset 0 is a fixed point
of the update (10 iterations stay at 0), yet the clamped target is 5: the
iteration never reaches the clamped target exactly. -/
theorem cameraStep_counterexample :
    cameraStep 1024 320 5 0 = 0 ∧
    cameraIter 1024 320 5 10 0 = 0 ∧
    max 0 (min 5 (1024 - 320)) = 5 ∧ (0 : Int) ≠ 5 := by
  exact ⟨by decide, by decide, by decide, by decide⟩

/-- Helper: every stored layer comes from an existing file. -/
theorem loadLayers_sources (files : String → Option (List (List String))) :
    ∀ p ∈ loadLayers files, (files p.1).isSome = true := by
  have go : ∀ (l : List String) (acc : List (String × Grid)),
      (∀ p ∈ acc, (files p.1).isSome = true) →
      ∀ p ∈ l.foldl (loadStep files) acc, (files p.1).isSome = true := by
    intro l
    induction l with
    | nil => intro acc hacc p hp; exact hacc p hp
    | cons name rest ih =>
      intro acc hacc
      rw [List.foldl_cons]
      apply ih
      intro p hp
      unfold loadStep at hp
      cases hf : files name with
      | none =>
        rw [hf] at hp
        exact hacc p hp
      | some rows =>
        rw [hf] at hp
        split_ifs at hp with hany
        · rcases List.mem_map.1 hp with ⟨q, hq, rfl⟩
          split_ifs with hq1
          · simp [hf]
          · exact hacc q hq
        · rcases List.mem_append.1 hp with hq | hq
          · exact hacc p hq
          · simp only [List.mem_singleton] at hq
            subst hq
            simp [hf]
  exact go loadOrder [] (by intro p hp; simp at hp)

/-- C9 (amended): the loader sends the empty token and the literal token
`-1` to 0 and parses every other token with `int()`; a loaded grid
contains no `-1` provided every token is either empty or the canonical
decimal spelling of its value (non-canonical spellings such as `-01`
still produce `-1`); and a layer whose file is absent is simply left out
of the layer store, without raising and without aborting construction. -/
theorem load_csv_layer_normalizes :
    (∀ s : String, s = "" ∨ s = "-1" → cellValue s = 0) ∧
    (∀ rows : List (List String),
      (∀ row ∈ rows, ∀ s ∈ row, s = "" ∨ s = toString (pyInt s)) →
      ∀ row ∈ load_csv_layer rows, ∀ v ∈ row, v ≠ -1) ∧
    (∀ (files : String → Option (List (List String))) (name : String),
      files name = none → lookupLayer (loadLayers files) name = none) := by
  refine ⟨?_, ?_, ?_⟩
  · intro s h
    rcases h with rfl | rfl <;> decide
  · intro rows hcanon row hrow v hv hveq
    rcases List.mem_map.1 hrow with ⟨row0, hrow0, rfl⟩
    rcases List.mem_map.1 hv with ⟨s, hs, rfl⟩
    rcases hcanon row0 hrow0 s hs with rfl | hrepr
    · exact absurd hveq (by decide)
    · unfold cellValue at hveq
      split_ifs at hveq with hcond
      rw [hveq] at hrepr
      have hs1 : s = "-1" := by
        rw [hrepr]
        rfl
      exact hcond.2 hs1
  · intro files name hnone
    have hfind : (loadLayers files).find? (fun p => p.1 == name) = none := by
      rw [List.find?_eq_none]
      intro p hp hbeq
      have hsome := loadLayers_sources files p hp
      rw [beq_iff_eq] at hbeq
      rw [hbeq, hnone] at hsome
      simp at hsome
    simp [lookupLayer, hfind]

/-- Witness for C9 at concrete inputs: a canonical-token row loads without
any `-1`, and a filesystem with no files yields an empty layer store. -/
theorem load_csv_layer_normalizes_witness :
    (-1 : Int) ∉ (load_csv_layer [["5", "", "-1"]]).headD [] ∧
    lookupLayer (loadLayers (fun _ => none)) "collision" = none := by
  constructor
  · intro hmem
    exact load_csv_layer_normalizes.2.1 [["5", "", "-1"]] (by decide)
      _ (by decide) (-1) hmem rfl
  · exact load_csv_layer_normalizes.2.2 (fun _ => none) "collision" rfl

/-- C9 counterexample to "the loaded grid never contains -1": the token
`-01` is nonempty and differs from the literal `-1`, so it is parsed with
`int()`, which yields `-1`. -/
theorem load_csv_layer_counterexample :
    load_csv_layer [["-01"]] = [[-1]] ∧
    (-1 : Int) ∈ (load_csv_layer [["-01"]]).headD [] := by
  exact ⟨by decide, by decide⟩

/-- C4 (amended): re-entering the Overworld screen always recreates the
player at the tilemap's stored spawn point and clears the prompt — no
coordinate is saved on zone entry — so the round trip preserves the
player's tile coordinates exactly when the coordinate at zone entry
equals the spawn point. -/
theorem enter_restores_spawn (s : MenuState) (m : Tilemap) (W H : Int) :
    ((s.enter m W H).player.tile_x = m.spawn_x ∧
     (s.enter m W H).player.tile_y = m.spawn_y ∧
     (s.enter m W H).interaction_prompt = none) ∧
    (((s.enter m W H).player.tile_x = s.player.tile_x ∧
      (s.enter m W H).player.tile_y = s.player.tile_y) ↔
     (s.player.tile_x = m.spawn_x ∧ s.player.tile_y = m.spawn_y)) := by
  refine ⟨⟨rfl, rfl, rfl⟩, ?_⟩
  constructor
  · rintro ⟨h1, h2⟩
    exact ⟨h1.symm, h2.symm⟩
  · rintro ⟨h1, h2⟩
    exact ⟨h1.symm, h2.symm⟩

/-- C4 counterexample: the player stood at tile (3, 3) when the zone
interaction triggered, but re-entering the Overworld screen puts the
player at the spawn point (0, 0), not at the saved coordinate. -/
theorem enter_counterexample :
    stateC4.player.tile_x = 3 ∧ stateC4.player.tile_y = 3 ∧
    ¬((stateC4.enter mapC4 1920 1200).player.tile_x = 3 ∧
      (stateC4.enter mapC4 1920 1200).player.tile_y = 3) := by
  decide

end Konekta
